import Mathlib

/-!
# podman-bootc: the `run` command (`cmd/run.go`)

A shallow embedding of `doRun`, the function behind `podman-bootc run`.
`doRun` is a straight-line orchestration of external collaborators (user
lookup, podman machine discovery, the podman bindings, the bootc disk
installer, the libvirt VM handle, SSH).  The embedding keeps the control flow
of the Go function and replaces every collaborator call by

* an entry in a trace of `Event`s, in program order, carrying the arguments
  the source passes, and
* an outcome read from an `Env` record, one outcome per call site (every
  collaborator is called from exactly one or two mutually exclusive places, so
  one outcome per collaborator describes every behaviour of a single run).

Go errors are values of `GoError`; `fmt.Errorf("msg: %w", err)` is
`GoError.Errorf "msg: " err`.  The package-level variable `ExitCode` is passed
in and returned explicitly.  The deferred closure of lines 130-135 is run after
the rest of the body on every path that registered it.  `args[0]` on an empty
argument list is a panic (cobra's `MinimumNArgs(1)` keeps it from happening
when `doRun` is reached through `runCmd`).

The trace of `doRun` is the trace of its control thread.  The `go` statement
of line 161 is the event `goPrintConsole`; what the goroutine does
(`bootcVM.PrintConsole()`, and logging its error) is not ordered against the
rest of `doRun` and cannot change what `doRun` returns.  `observed` merges the
actions of the goroutine into a trace for a given `ConsoleSchedule`.
-/

namespace PodmanBootc

/-- Go `error` values: created by `errors.New` or by a collaborator
(`New`), or wrapping another error with `fmt.Errorf("<msg>%w", err)`. -/
inductive GoError where
  | New (msg : String)
  | Errorf (msg : String) (err : GoError)
  deriving DecidableEq, Repr

/-- The value returned by `user.NewUser()` (package `pkg/user`). -/
structure User where
  name : String
  deriving DecidableEq, Repr

/-- The fields of `utils.MachineInfo` that `doRun` reads. -/
structure MachineInfo where
  PodmanSocket : String
  SSHIdentityPath : String
  Rootful : Bool
  deriving DecidableEq, Repr

/-- The connection context returned by `bindings.NewConnectionWithIdentity`. -/
structure Ctx where
  conn : Nat
  deriving DecidableEq, Repr

/-- Lines 21-30: `type osVmConfig struct`. -/
structure osVmConfig where
  User : String
  CloudInitDir : String
  KsFile : String
  Background : Bool
  NoCredentials : Bool
  RemoveVm : Bool
  RemoveDiskImage : Bool
  Quiet : Bool
  deriving DecidableEq, Repr

/-- The three fields of `bootc.DiskImageConfig` bound to flags in `init`. -/
structure DiskImageConfig where
  Filesystem : String
  RootSizeMax : String
  DiskSize : String
  deriving DecidableEq, Repr

/-- The lock modes of `pkg/utils`; `doRun` only uses `utils.Shared`. -/
inductive AccessMode where
  | Shared
  | Exclusive
  deriving DecidableEq, Repr

/-- Lines 118-123: the literal `vm.NewVMParameters{...}`. -/
structure NewVMParameters where
  ImageID : String
  User : User
  LibvirtUri : String
  Locking : AccessMode
  deriving DecidableEq, Repr

/-- Lines 138-148: the literal `vm.RunVMParameters{...}`. -/
structure RunVMParameters where
  Cmd : List String
  CloudInitDir : String
  NoCredentials : Bool
  CloudInitData : Bool
  RemoveVm : Bool
  Background : Bool
  SSHPort : Int
  SSHIdentity : String
  VMUser : String
  deriving DecidableEq, Repr

/-- One observable action of `doRun`: a call to a collaborator, a line printed
or logged, the start of the console goroutine, or the settle sleep. -/
inductive Event where
  | NewUser
  | GetMachineInfo (user : User)
  | println (msg : String)
  | Stat (path : String)
  | logrusErrorf (format : String) (err : GoError)
  | NewConnectionWithIdentity (uri : String) (identity : String) (machine : Bool)
  | NewBootcDisk (idOrName : String) (ctx : Ctx) (user : User)
  | Install (quiet : Bool) (config : DiskImageConfig)
  | GetFreeLocalTcpPort
  | NewVM (params : NewVMParameters)
  | Run (params : RunVMParameters)
  | WriteConfig
  | goPrintConsole
  | WaitForSSHToBeReady
  | Sleep (seconds : Nat)
  | RunSSH (cmd : List String)
  | Delete
  | CloseConnection
  | Unlock
  | logrusWarningf (format : String) (imageId : String) (err : GoError)
  deriving DecidableEq, Repr

/-- What the collaborators do during one run.  `none` (or `Except.ok`) is a
`nil` error.  `PodmanMachineErrorMessage` and `LibvirtUri` are constants of packages
outside `cmd/run.go` and are taken as parameters; `GetImageId` is what
`bootcDisk.GetImageId()` reports after `Install`; `RunSSH` is the pair that
`utils.WithExitCode(bootcVM.RunSSH(cmd))` evaluates to (line 189), the exit
code and the error left after `WithExitCode` has looked at it. -/
structure Env where
  PodmanMachineErrorMessage : String
  LibvirtUri : String
  NewUser : Except GoError User
  GetMachineInfo : Except GoError (Option MachineInfo)
  Stat : Option GoError
  NewConnectionWithIdentity : Except GoError Ctx
  Install : Option GoError
  GetImageId : String
  GetFreeLocalTcpPort : Except GoError Int
  NewVM : Option GoError
  Run : Option GoError
  WriteConfig : Option GoError
  WaitForSSHToBeReady : Option GoError
  RunSSH : Int × Option GoError
  Delete : Option GoError
  Unlock : Option GoError

/-- How an invocation of `doRun` ends: it returns an `error` (`none` is `nil`)
or it panics (`args[0]` on an empty slice). -/
inductive Outcome where
  | returned (err : Option GoError)
  | panicked (msg : String)
  deriving DecidableEq, Repr

/-- The observable result of one invocation: the actions in program order, how
the function ended, and the final value of the package variable `ExitCode`. -/
structure RunResult where
  trace : List Event
  outcome : Outcome
  ExitCode : Int
  deriving DecidableEq, Repr

/-- Lines 188-203: `RunSSH`, the conditional `Delete`, and the final
`return nil`.  `trace` holds the actions already performed. -/
def doRunSSH (env : Env) (vmConfig : osVmConfig) (cmd : List String)
    (trace : List Event) : RunResult :=
  let trace := trace ++ [Event.RunSSH cmd]
  let (ExitCode, err) := env.RunSSH
  match err with
  | some err => ⟨trace, .returned (some (.Errorf "ssh: " err)), ExitCode⟩
  | none =>
    if vmConfig.RemoveVm || decide (cmd.length > 0) then
      let trace := trace ++ [Event.Delete]
      match env.Delete with
      | some err =>
        ⟨trace, .returned (some (.Errorf "unable to remove VM from cache: " err)), ExitCode⟩
      | none => ⟨trace, .returned none, ExitCode⟩
    else
      ⟨trace, .returned none, ExitCode⟩

/-- Lines 137-203: the part of `doRun` that runs after the deferred cleanup has
been registered, as the control thread performs it.  `goPrintConsole` is the
`go` statement of line 161; the actions of the goroutine it starts are added
by `observed`. -/
def doRunBody (env : Env) (vmConfig : osVmConfig) (cloudinitChanged : Bool)
    (args : List String) (machineInfo : MachineInfo) (sshPort : Int)
    (ExitCode : Int) : RunResult :=
  let cmd := args.drop 1
  let trace := [Event.Run {
    Cmd := cmd
    CloudInitDir := vmConfig.CloudInitDir
    NoCredentials := vmConfig.NoCredentials
    CloudInitData := cloudinitChanged
    RemoveVm := vmConfig.RemoveVm
    Background := vmConfig.Background
    SSHPort := sshPort
    SSHIdentity := machineInfo.SSHIdentityPath
    VMUser := vmConfig.User }]
  match env.Run with
  | some err => ⟨trace, .returned (some (.Errorf "runBootcVM: " err)), ExitCode⟩
  | none =>
    let trace := trace ++ [Event.WriteConfig]
    match env.WriteConfig with
    | some err => ⟨trace, .returned (some err), ExitCode⟩
    | none =>
      if !vmConfig.Background then
        if !vmConfig.Quiet then
          let trace := trace ++ [Event.goPrintConsole, Event.WaitForSSHToBeReady]
          match env.WaitForSSHToBeReady with
          | some err => ⟨trace, .returned (some (.Errorf "WaitSshReady: " err)), ExitCode⟩
          | none => doRunSSH env vmConfig cmd (trace ++ [Event.Sleep 1])
        else
          let trace := trace ++ [Event.WaitForSSHToBeReady]
          match env.WaitForSSHToBeReady with
          | some err => ⟨trace, .returned (some (.Errorf "WaitSshReady: " err)), ExitCode⟩
          | none => doRunSSH env vmConfig cmd trace
      else
        ⟨trace, .returned none, ExitCode⟩

/-- Lines 130-135: the deferred closure, run when `doRun` leaves the body:
`CloseConnection`, then `Unlock`, whose error is only logged.  The return
value of `doRun` is unnamed, so the closure cannot change it. -/
def runDeferred (env : Env) (r : RunResult) : RunResult :=
  let trace := r.trace ++ [Event.CloseConnection, Event.Unlock]
  match env.Unlock with
  | some err =>
    { r with trace := trace ++ [Event.logrusWarningf "unable to unlock VM %s: %v" env.GetImageId err] }
  | none => { r with trace := trace }

/-- Lines 62-204: `doRun(flags, args)`.  `cloudinitChanged` is
`flags.Flags().Changed("cloudinit")`; `vmConfig` and
`diskImageConfigInstance` are the package variables bound to the flags in
`init`; `ExitCode` is the value of the package variable on entry. -/
def doRun (env : Env) (vmConfig : osVmConfig) (diskImageConfigInstance : DiskImageConfig)
    (cloudinitChanged : Bool) (args : List String) (ExitCode : Int) : RunResult :=
  let trace := [Event.NewUser]
  match env.NewUser with
  | .error err => ⟨trace, .returned (some (.Errorf "unable to get user: " err)), ExitCode⟩
  | .ok user =>
  let trace := trace ++ [Event.GetMachineInfo user]
  match env.GetMachineInfo with
  | .error err => ⟨trace, .returned (some err), ExitCode⟩
  | .ok none =>
    ⟨trace ++ [Event.println env.PodmanMachineErrorMessage],
      .returned (some (.New
        "rootful podman machine is required, please run \x27podman machine init --rootful\x27")),
      ExitCode⟩
  | .ok (some machineInfo) =>
  if !machineInfo.Rootful then
    ⟨trace ++ [Event.println env.PodmanMachineErrorMessage],
      .returned (some (.New
        "rootful podman machine is required, please run \x27podman machine set --rootful\x27")),
      ExitCode⟩
  else
  let trace := trace ++ [Event.Stat machineInfo.PodmanSocket]
  match env.Stat with
  | some err =>
    ⟨trace ++ [Event.println env.PodmanMachineErrorMessage,
        Event.logrusErrorf "podman machine socket is missing. Is podman machine running?\n%s" err],
      .returned (some err), ExitCode⟩
  | none =>
  let trace := trace ++ [Event.NewConnectionWithIdentity
    ("unix://" ++ machineInfo.PodmanSocket) machineInfo.SSHIdentityPath true]
  match env.NewConnectionWithIdentity with
  | .error err =>
    ⟨trace ++ [Event.println env.PodmanMachineErrorMessage,
        Event.logrusErrorf
          "failed to connect to the podman socket. Is podman machine running?\n%s" err],
      .returned (some err), ExitCode⟩
  | .ok ctx =>
  match args with
  | [] => ⟨trace, .panicked "runtime error: index out of range [0] with length 0", ExitCode⟩
  | idOrName :: _ =>
  let trace := trace ++ [Event.NewBootcDisk idOrName ctx user,
    Event.Install vmConfig.Quiet diskImageConfigInstance]
  match env.Install with
  | some err => ⟨trace, .returned (some (.Errorf "unable to install bootc image: " err)), ExitCode⟩
  | none =>
  let trace := trace ++ [Event.println "Booting the VM...", Event.GetFreeLocalTcpPort]
  match env.GetFreeLocalTcpPort with
  | .error err =>
    ⟨trace, .returned (some (.Errorf "unable to get free port for SSH: " err)), ExitCode⟩
  | .ok sshPort =>
  let trace := trace ++ [Event.NewVM {
    ImageID := env.GetImageId
    User := user
    LibvirtUri := env.LibvirtUri
    Locking := AccessMode.Shared }]
  match env.NewVM with
  | some err => ⟨trace, .returned (some (.Errorf "unable to initialize VM: " err)), ExitCode⟩
  | none =>
  let r := doRunBody env vmConfig cloudinitChanged args machineInfo sshPort ExitCode
  runDeferred env { r with trace := trace ++ r.trace }


/-! ## Vocabulary used by the statements -/

/-- The steps of `doRun`, one per collaborator call site, in source order.
Host validation is `MachineInfo` (lines 70-83: the call and the nil and rootful
checks on its result) followed by `SocketStat` (lines 85-89). -/
inductive Step where
  | UserLookup
  | MachineInfo
  | SocketStat
  | Connect
  | Install
  | PortAllocation
  | NewVM
  | Run
  | WriteConfig
  | ReadinessWait
  | SSH
  | Delete
  deriving DecidableEq, Repr

/-- Position of a step in the source order of `doRun`. -/
def Step.index : Step → Nat
  | .UserLookup => 0
  | .MachineInfo => 1
  | .SocketStat => 2
  | .Connect => 3
  | .Install => 4
  | .PortAllocation => 5
  | .NewVM => 6
  | .Run => 7
  | .WriteConfig => 8
  | .ReadinessWait => 9
  | .SSH => 10
  | .Delete => 11

/-- The step an event is the call of, if any.  Printing, logging, the
`NewBootcDisk` constructor, the console goroutine, the settle sleep and the
deferred cleanup are not steps. -/
def Event.step : Event → Option Step
  | .NewUser => some .UserLookup
  | .GetMachineInfo _ => some .MachineInfo
  | .Stat _ => some .SocketStat
  | .NewConnectionWithIdentity _ _ _ => some .Connect
  | .Install _ _ => some .Install
  | .GetFreeLocalTcpPort => some .PortAllocation
  | .NewVM _ => some .NewVM
  | .Run _ => some .Run
  | .WriteConfig => some .WriteConfig
  | .WaitForSSHToBeReady => some .ReadinessWait
  | .RunSSH _ => some .SSH
  | .Delete => some .Delete
  | _ => none

/-- Step `s` was invoked during the run: its call is in the trace. -/
def invoked (r : RunResult) (s : Step) : Prop :=
  ∃ e ∈ r.trace, e.step = some s

instance (r : RunResult) (s : Step) : Decidable (invoked r s) :=
  inferInstanceAs (Decidable (∃ e ∈ r.trace, e.step = some s))

/-- Step `s` fails under `env`: the test `doRun` makes right after the call
sends it to the early return.  For `MachineInfo` that is an error, a nil
result or a machine that is not rootful; for `SSH` it is the error that
`utils.WithExitCode(bootcVM.RunSSH(cmd))` hands back. -/
def Step.fails (env : Env) : Step → Bool
  | .UserLookup =>
    match env.NewUser with
    | .error _ => true
    | .ok _ => false
  | .MachineInfo =>
    match env.GetMachineInfo with
    | .error _ => true
    | .ok none => true
    | .ok (some machineInfo) => !machineInfo.Rootful
  | .SocketStat => env.Stat.isSome
  | .Connect =>
    match env.NewConnectionWithIdentity with
    | .error _ => true
    | .ok _ => false
  | .Install => env.Install.isSome
  | .PortAllocation =>
    match env.GetFreeLocalTcpPort with
    | .error _ => true
    | .ok _ => false
  | .NewVM => env.NewVM.isSome
  | .Run => env.Run.isSome
  | .WriteConfig => env.WriteConfig.isSome
  | .ReadinessWait => env.WaitForSSHToBeReady.isSome
  | .SSH => env.RunSSH.2.isSome
  | .Delete => env.Delete.isSome

/-- Calls that reach the podman backend, the disk installer or the VM
handle. -/
def Event.isBackendCall : Event → Bool
  | .NewConnectionWithIdentity _ _ _ => true
  | .NewBootcDisk _ _ _ => true
  | .Install _ _ => true
  | .NewVM _ => true
  | .Run _ => true
  | .WriteConfig => true
  | .goPrintConsole => true
  | .WaitForSSHToBeReady => true
  | .RunSSH _ => true
  | .Delete => true
  | .CloseConnection => true
  | .Unlock => true
  | _ => false

/-- Operations on the VM handle `bootcVM` (its construction included). -/
def Event.isVMOp : Event → Bool
  | .NewVM _ => true
  | .Run _ => true
  | .WriteConfig => true
  | .goPrintConsole => true
  | .WaitForSSHToBeReady => true
  | .RunSSH _ => true
  | .Delete => true
  | .CloseConnection => true
  | .Unlock => true
  | _ => false

/-- The warning logged by the deferred closure when `Unlock` fails. -/
def Event.isUnlockWarning : Event → Bool
  | .logrusWarningf _ _ _ => true
  | _ => false

/-- The run ended by returning a non-nil error. -/
def Outcome.isError : Outcome → Bool
  | .returned (some _) => true
  | _ => false

/-- Some event satisfying `p` is followed, later in the trace, by an event
satisfying `q`. -/
def precedes (p q : Event → Bool) : List Event → Bool
  | [] => false
  | e :: rest => (p e && rest.any q) || precedes p q rest

/-- The steps invoked during a run, in the order of their calls. -/
def RunResult.steps (r : RunResult) : List Step :=
  r.trace.filterMap Event.step

/-- The command of a `RunSSH` call. -/
def Event.sshCommand : Event → Option (List String)
  | .RunSSH cmd => some cmd
  | _ => none

/-- All steps, in source order. -/
def Step.all : List Step :=
  [.UserLookup, .MachineInfo, .SocketStat, .Connect, .Install, .PortAllocation, .NewVM, .Run,
    .WriteConfig, .ReadinessWait, .SSH, .Delete]

/-- The flags and arguments put step `s` on the path of the run: the steps from
the disk install on need `args[0]` (line 103; `cobra.MinimumNArgs(1)` of line
38 provides it), the readiness wait and SSH are inside `if !vmConfig.Background`
(line 159), and `Delete` is moreover inside
`if vmConfig.RemoveVm || len(cmd) > 0` (line 195). -/
def Step.enabled (vmConfig : osVmConfig) (args : List String) : Step → Bool
  | .UserLookup => true
  | .MachineInfo => true
  | .SocketStat => true
  | .Connect => true
  | .Install => !args.isEmpty
  | .PortAllocation => !args.isEmpty
  | .NewVM => !args.isEmpty
  | .Run => !args.isEmpty
  | .WriteConfig => !args.isEmpty
  | .ReadinessWait => !args.isEmpty && !vmConfig.Background
  | .SSH => !args.isEmpty && !vmConfig.Background
  | .Delete =>
    !args.isEmpty && !vmConfig.Background && (vmConfig.RemoveVm || !(args.drop 1).isEmpty)

/-- The steps of a list up to and including the first one that fails. -/
def upToFirstFailure (env : Env) : List Step → List Step
  | [] => []
  | s :: rest => if s.fails env then [s] else s :: upToFirstFailure env rest

/-- What the goroutine of lines 161-166 does: it calls
`bootcVM.PrintConsole()` and, when that returns an error, logs it. -/
inductive ConsoleEvent where
  | PrintConsole
  | logrusErrorf (format : String) (err : GoError)
  deriving DecidableEq, Repr

/-- An action of the process: one of the control thread that runs `doRun`, or
one of the console goroutine. -/
inductive Action where
  | control (e : Event)
  | console (e : ConsoleEvent)
  deriving DecidableEq, Repr

/-- How the console goroutine is scheduled against the control thread.  Nothing
in `doRun` orders the goroutine after the `go` statement: `enter = some k` lets
the control thread perform `k` more actions before the goroutine calls
`PrintConsole` (beyond the end of the trace: after `doRun` has returned and
before the process exits), `enter = none` lets the process exit first;
`failure = some (j, err)` makes `PrintConsole` return `err`, logged after `j`
further actions. -/
structure ConsoleSchedule where
  enter : Option Nat
  failure : Option (Nat × GoError)

/-- The event of a control-thread action. -/
def Action.control? : Action → Option Event
  | .control e => some e
  | .console _ => none

/-- The action belongs to the console goroutine. -/
def Action.isConsole : Action → Bool
  | .control _ => false
  | .console _ => true

/-- Operations on the VM handle, by either thread. -/
def Action.isVMOp : Action → Bool
  | .control e => e.isVMOp
  | .console .PrintConsole => true
  | .console (.logrusErrorf _ _) => false

/-- Insert `ins` after the first `k` actions of a list (at its end when the
list is shorter). -/
def spliceAt (k : Nat) (ins : List Action) : List Action → List Action
  | [] => ins
  | a :: rest =>
    match k with
    | 0 => ins ++ a :: rest
    | k + 1 => a :: spliceAt k ins rest

/-- The actions of the console goroutine merged into what the control thread
does after the `go` statement. -/
def runConsole (s : ConsoleSchedule) (rest : List Action) : List Action :=
  match s.enter with
  | none => rest
  | some k =>
    match s.failure with
    | none => spliceAt k [.console .PrintConsole] rest
    | some (j, err) =>
      spliceAt (k + 1 + j) [.console (.logrusErrorf "error printing VM console: %v" err)]
        (spliceAt k [.console .PrintConsole] rest)

/-- The actions of the whole process for a trace of `doRun` and a schedule of
the console goroutine: the goroutine exists from the `go` statement on. -/
def observed (s : ConsoleSchedule) : List Event → List Action
  | [] => []
  | e :: rest =>
    if e = Event.goPrintConsole then .control e :: runConsole s (rest.map .control)
    else .control e :: observed s rest

/-! ## Concrete inputs used by the examples -/

/-- A rootful podman machine. -/
def sampleMachine : MachineInfo :=
  { PodmanSocket := "/run/podman/podman.sock"
    SSHIdentityPath := "/home/core/.ssh/machine"
    Rootful := true }

/-- Every collaborator succeeds. -/
def envOk : Env :=
  { PodmanMachineErrorMessage := "podman machine is not set up"
    LibvirtUri := "qemu:///session"
    NewUser := .ok { name := "core" }
    GetMachineInfo := .ok (some sampleMachine)
    Stat := none
    NewConnectionWithIdentity := .ok { conn := 1 }
    Install := none
    GetImageId := "0123abcd"
    GetFreeLocalTcpPort := .ok 2222
    NewVM := none
    Run := none
    WriteConfig := none
    WaitForSSHToBeReady := none
    RunSSH := (0, none)
    Delete := none
    Unlock := none }

/-- The flag defaults of `init`: foreground, not quiet, no `--rm`. -/
def defaultConfig : osVmConfig :=
  { User := "root"
    CloudInitDir := ""
    KsFile := ""
    Background := false
    NoCredentials := false
    RemoveVm := false
    RemoveDiskImage := false
    Quiet := false }

/-- No disk overrides. -/
def defaultDisk : DiskImageConfig :=
  { Filesystem := "", RootSizeMax := "", DiskSize := "" }


/-! ## Theorems

Every statement about `doRun` is proved by following the function through its
exit paths: the collaborator outcomes are split in the order of the calls, and
on each path the statement is evaluated on the resulting trace. -/

set_option linter.unnecessarySeqFocus false
set_option linter.unusedTactic false
set_option maxHeartbeats 1000000

/-- The test `len(cmd) > 0` of line 195 holds exactly when `cmd` is not empty. -/
theorem decide_length_pos (l : List String) : decide (l.length > 0) = !l.isEmpty := by
  cases l <;> simp

/-- A step is invoked exactly when it is among the steps of the run. -/
theorem invoked_iff_mem_steps (r : RunResult) (s : Step) : invoked r s ↔ s ∈ r.steps := by
  simp [invoked, RunResult.steps, List.mem_filterMap]

/-- C1 (as stated, refuted): when the user lookup fails, `doRun` returns before a
VM handle exists and `Unlock` is not invoked at all. -/
theorem C1_counterexample :
    (doRun { envOk with NewUser := .error (.New "no such user") }
      defaultConfig defaultDisk false ["quay.io/img"] 0).trace.count Event.Unlock = 0 := by
  decide

/-- C1 (amended): `Unlock` is invoked exactly once when `vm.NewVM` was called and
succeeded, and not at all otherwise (the deferred cleanup is registered only
after `vm.NewVM` has returned without error). -/
theorem C1_unlock_once_iff_vm_created (env : Env) (vmConfig : osVmConfig)
    (disk : DiskImageConfig) (chg : Bool) (args : List String) (ec : Int) :
    ((doRun env vmConfig disk chg args ec).trace.count Event.Unlock = 1 ↔
      (invoked (doRun env vmConfig disk chg args ec) .NewVM ∧ env.NewVM = none))
    ∧ ((doRun env vmConfig disk chg args ec).trace.count Event.Unlock = 0 ↔
      ¬ (invoked (doRun env vmConfig disk chg args ec) .NewVM ∧ env.NewVM = none)) := by
  obtain ⟨hint, uri, nu, gmi, st, conn, inst, img, port, nvm, run, wc, wait, ⟨code, ssh⟩, del,
      unl⟩ := env
  obtain ⟨u, cd, ks, bg, nc, rm, rdi, q⟩ := vmConfig
  simp only [doRun, doRunBody, doRunSSH, runDeferred, decide_length_pos, List.cons_append,
      List.nil_append, List.append_assoc]
  rcases nu with _ | user
  · exact of_decide_eq_true rfl
  rcases gmi with _ | _ | ⟨sock, ident, _ | _⟩
  · exact of_decide_eq_true rfl
  · exact of_decide_eq_true rfl
  · exact of_decide_eq_true rfl
  rcases st with _ | _; swap
  · exact of_decide_eq_true rfl
  rcases conn with _ | ctx
  · exact of_decide_eq_true rfl
  rcases args with _ | ⟨idOrName, cmd⟩
  · exact of_decide_eq_true rfl
  rcases inst with _ | _; swap
  · exact of_decide_eq_true rfl
  rcases port with _ | sshPort
  · exact of_decide_eq_true rfl
  rcases nvm with _ | _; swap
  · exact of_decide_eq_true rfl
  rcases unl with _ | _
  all_goals (rcases run with _ | _; swap; · exact of_decide_eq_true rfl)
  all_goals (rcases wc with _ | _; swap; · exact of_decide_eq_true rfl)
  all_goals (rcases bg with _ | _; swap; · exact of_decide_eq_true rfl)
  all_goals rcases q with _ | _
  all_goals (rcases wait with _ | _; swap; · exact of_decide_eq_true rfl)
  all_goals (rcases ssh with _ | _; swap; · exact of_decide_eq_true rfl)
  all_goals rcases rm with _ | _
  all_goals rcases cmd with _ | ⟨c, cs⟩
  all_goals rcases del with _ | _
  all_goals exact of_decide_eq_true rfl

/-- C2 (as stated, refuted): with `--background --rm` and every collaborator
succeeding, `RemoveVm` is true and `Delete` is not invoked. -/
theorem C2_counterexample :
    ({ defaultConfig with Background := true, RemoveVm := true }).RemoveVm = true
    ∧ Event.Delete ∉ (doRun envOk { defaultConfig with Background := true, RemoveVm := true }
        defaultDisk false ["quay.io/img"] 0).trace := by
  decide

/-- When `Delete` is called: the SSH step was reached and handed back no error,
the run is a foreground run, and `RemoveVm` is set or a command was given. -/
theorem delete_iff_aux (env : Env) (vmConfig : osVmConfig)
    (disk : DiskImageConfig) (chg : Bool) (args : List String) (ec : Int) :
    Event.Delete ∈ (doRun env vmConfig disk chg args ec).trace ↔
      (invoked (doRun env vmConfig disk chg args ec) .SSH
        ∧ env.RunSSH.2 = none
        ∧ vmConfig.Background = false
        ∧ (vmConfig.RemoveVm = true ∨ args.drop 1 ≠ [])) := by
  obtain ⟨hint, uri, nu, gmi, st, conn, inst, img, port, nvm, run, wc, wait, ⟨code, ssh⟩, del,
      unl⟩ := env
  obtain ⟨u, cd, ks, bg, nc, rm, rdi, q⟩ := vmConfig
  simp only [doRun, doRunBody, doRunSSH, runDeferred, decide_length_pos, List.cons_append,
      List.nil_append, List.append_assoc]
  rcases nu with _ | user
  · exact of_decide_eq_true rfl
  rcases gmi with _ | _ | ⟨sock, ident, _ | _⟩
  · exact of_decide_eq_true rfl
  · exact of_decide_eq_true rfl
  · exact of_decide_eq_true rfl
  rcases st with _ | _; swap
  · exact of_decide_eq_true rfl
  rcases conn with _ | ctx
  · exact of_decide_eq_true rfl
  rcases args with _ | ⟨idOrName, cmd⟩
  · exact of_decide_eq_true rfl
  rcases inst with _ | _; swap
  · exact of_decide_eq_true rfl
  rcases port with _ | sshPort
  · exact of_decide_eq_true rfl
  rcases nvm with _ | _; swap
  · exact of_decide_eq_true rfl
  rcases unl with _ | _
  all_goals (rcases run with _ | _; swap; · exact of_decide_eq_true rfl)
  all_goals (rcases wc with _ | _; swap; · exact of_decide_eq_true rfl)
  all_goals (rcases bg with _ | _; swap; · exact of_decide_eq_true rfl)
  all_goals rcases q with _ | _
  all_goals (rcases wait with _ | _; swap; · exact of_decide_eq_true rfl)
  all_goals (rcases ssh with _ | _; swap; · exact of_decide_eq_true rfl)
  all_goals rcases rm with _ | _
  all_goals rcases cmd with _ | ⟨c, cs⟩
  all_goals rcases del with _ | _
  all_goals exact of_decide_eq_true rfl

/-- C2 (amended): `Delete` is invoked exactly when the run is a foreground run
whose `RunSSH` step was reached and handed back no error, and `RemoveVm` is true
or `args[1:]` is non-empty; it is never invoked when `Background` is true. -/
theorem C2_delete_iff (env : Env) (vmConfig : osVmConfig)
    (disk : DiskImageConfig) (chg : Bool) (args : List String) (ec : Int) :
    (Event.Delete ∈ (doRun env vmConfig disk chg args ec).trace ↔
      (vmConfig.Background = false
        ∧ invoked (doRun env vmConfig disk chg args ec) .SSH
        ∧ env.RunSSH.2 = none
        ∧ (vmConfig.RemoveVm = true ∨ args.drop 1 ≠ [])))
    ∧ (vmConfig.Background = true →
        Event.Delete ∉ (doRun env vmConfig disk chg args ec).trace) := by
  have h := delete_iff_aux env vmConfig disk chg args ec
  refine ⟨?_, ?_⟩
  · rw [h]
    tauto
  · intro hbg hd
    have h3 := (h.mp hd).2.2.1
    rw [hbg] at h3
    exact Bool.noConfusion h3

/-- A background run starts no console goroutine and invokes neither the
readiness wait nor the SSH step. -/
theorem background_skips_interactive (env : Env) (vmConfig : osVmConfig)
    (disk : DiskImageConfig) (chg : Bool) (args : List String) (ec : Int)
    (hbg : vmConfig.Background = true) :
    Event.goPrintConsole ∉ (doRun env vmConfig disk chg args ec).trace
    ∧ ¬ invoked (doRun env vmConfig disk chg args ec) .ReadinessWait
    ∧ ¬ invoked (doRun env vmConfig disk chg args ec) .SSH := by
  obtain ⟨hint, uri, nu, gmi, st, conn, inst, img, port, nvm, run, wc, wait, ⟨code, ssh⟩, del,
      unl⟩ := env
  obtain ⟨u, cd, ks, bg, nc, rm, rdi, q⟩ := vmConfig
  obtain rfl : bg = true := hbg
  simp only [doRun, doRunBody, doRunSSH, runDeferred, decide_length_pos, List.cons_append,
      List.nil_append, List.append_assoc]
  rcases nu with _ | user
  · exact of_decide_eq_true rfl
  rcases gmi with _ | _ | ⟨sock, ident, _ | _⟩
  · exact of_decide_eq_true rfl
  · exact of_decide_eq_true rfl
  · exact of_decide_eq_true rfl
  rcases st with _ | _; swap
  · exact of_decide_eq_true rfl
  rcases conn with _ | ctx
  · exact of_decide_eq_true rfl
  rcases args with _ | ⟨idOrName, cmd⟩
  · exact of_decide_eq_true rfl
  rcases inst with _ | _; swap
  · exact of_decide_eq_true rfl
  rcases port with _ | sshPort
  · exact of_decide_eq_true rfl
  rcases nvm with _ | _; swap
  · exact of_decide_eq_true rfl
  rcases unl with _ | _
  all_goals (rcases run with _ | _; swap; · exact of_decide_eq_true rfl)
  all_goals (rcases wc with _ | _; swap; · exact of_decide_eq_true rfl)
  all_goals exact of_decide_eq_true rfl

/-- C3: with `Background = true`, whatever the collaborators do, the console
goroutine is never started and neither `WaitForSSHToBeReady` nor `RunSSH` is
invoked. -/
theorem C3_background_no_console_wait_ssh (env : Env) (vmConfig : osVmConfig)
    (disk : DiskImageConfig) (chg : Bool) (args : List String) (ec : Int)
    (hbg : vmConfig.Background = true) :
    Event.goPrintConsole ∉ (doRun env vmConfig disk chg args ec).trace
    ∧ Event.WaitForSSHToBeReady ∉ (doRun env vmConfig disk chg args ec).trace
    ∧ ∀ cmd, Event.RunSSH cmd ∉ (doRun env vmConfig disk chg args ec).trace := by
  obtain ⟨h1, h2, h3⟩ := background_skips_interactive env vmConfig disk chg args ec hbg
  exact ⟨h1, fun h => h2 ⟨_, h, rfl⟩, fun cmd h => h3 ⟨_, h, rfl⟩⟩

/-- C3 at a concrete input: a background run in which every collaborator
succeeds. -/
theorem C3_witness :
    Event.goPrintConsole ∉ (doRun envOk { defaultConfig with Background := true }
        defaultDisk false ["quay.io/img"] 0).trace
    ∧ Event.WaitForSSHToBeReady ∉ (doRun envOk { defaultConfig with Background := true }
        defaultDisk false ["quay.io/img"] 0).trace
    ∧ ∀ cmd, Event.RunSSH cmd ∉ (doRun envOk { defaultConfig with Background := true }
        defaultDisk false ["quay.io/img"] 0).trace :=
  C3_background_no_console_wait_ssh envOk { defaultConfig with Background := true }
    defaultDisk false ["quay.io/img"] 0 rfl

/-- C4 (as stated, refuted): a background run in which `Run` is invoked and
succeeds and `WriteConfig` then fails returns the `WriteConfig` error. -/
theorem C4_counterexample :
    invoked (doRun { envOk with WriteConfig := some (.New "disk full") }
      { defaultConfig with Background := true } defaultDisk false ["quay.io/img"] 0) .Run
    ∧ ({ envOk with WriteConfig := some (.New "disk full") } : Env).Run = none
    ∧ (doRun { envOk with WriteConfig := some (.New "disk full") }
      { defaultConfig with Background := true } defaultDisk false ["quay.io/img"] 0).outcome
        = .returned (some (.New "disk full")) := by
  decide

/-- C4 (amended): a background run in which `Run` is invoked and succeeds and
`WriteConfig` succeeds returns nil, whatever `Unlock` (the only collaborator
called afterwards) does. -/
theorem C4_background_success (env : Env) (vmConfig : osVmConfig)
    (disk : DiskImageConfig) (chg : Bool) (args : List String) (ec : Int)
    (hbg : vmConfig.Background = true)
    (hinv : invoked (doRun env vmConfig disk chg args ec) .Run)
    (hrun : env.Run = none) (hwc : env.WriteConfig = none) :
    (doRun env vmConfig disk chg args ec).outcome = .returned none := by
  revert hinv hrun hwc
  obtain ⟨hint, uri, nu, gmi, st, conn, inst, img, port, nvm, run, wc, wait, ⟨code, ssh⟩, del,
      unl⟩ := env
  obtain ⟨u, cd, ks, bg, nc, rm, rdi, q⟩ := vmConfig
  obtain rfl : bg = true := hbg
  simp only [doRun, doRunBody, doRunSSH, runDeferred, decide_length_pos, List.cons_append,
      List.nil_append, List.append_assoc]
  rcases nu with _ | user
  · exact of_decide_eq_true rfl
  rcases gmi with _ | _ | ⟨sock, ident, _ | _⟩
  · exact of_decide_eq_true rfl
  · exact of_decide_eq_true rfl
  · exact of_decide_eq_true rfl
  rcases st with _ | _; swap
  · exact of_decide_eq_true rfl
  rcases conn with _ | ctx
  · exact of_decide_eq_true rfl
  rcases args with _ | ⟨idOrName, cmd⟩
  · exact of_decide_eq_true rfl
  rcases inst with _ | _; swap
  · exact of_decide_eq_true rfl
  rcases port with _ | sshPort
  · exact of_decide_eq_true rfl
  rcases nvm with _ | _; swap
  · exact of_decide_eq_true rfl
  rcases unl with _ | _
  all_goals (rcases run with _ | _; swap; · exact of_decide_eq_true rfl)
  all_goals (rcases wc with _ | _; swap; · exact of_decide_eq_true rfl)
  all_goals exact of_decide_eq_true rfl

/-- C4 (amended) at a concrete input: a background run in which every
collaborator but `Unlock` succeeds. -/
theorem C4_witness :
    (doRun { envOk with Unlock := some (.New "lock file missing") }
      { defaultConfig with Background := true } defaultDisk false ["quay.io/img"] 0).outcome
        = .returned none :=
  C4_background_success { envOk with Unlock := some (.New "lock file missing") }
    { defaultConfig with Background := true } defaultDisk false ["quay.io/img"] 0
    rfl (by decide) rfl rfl

/-- Whatever `Unlock` returns, the run returns the same error, leaves the same
`ExitCode` and performs the same actions, the unlock warning apart, as the run
in which `Unlock` succeeds. -/
theorem unlock_outcome_aux (env : Env) (vmConfig : osVmConfig)
    (disk : DiskImageConfig) (chg : Bool) (args : List String) (ec : Int)
    (v : Option GoError) :
    (doRun { env with Unlock := v } vmConfig disk chg args ec).outcome
      = (doRun { env with Unlock := none } vmConfig disk chg args ec).outcome
    ∧ (doRun { env with Unlock := v } vmConfig disk chg args ec).ExitCode
      = (doRun { env with Unlock := none } vmConfig disk chg args ec).ExitCode
    ∧ (doRun { env with Unlock := v } vmConfig disk chg args ec).trace.filter
        (fun e => !e.isUnlockWarning)
      = (doRun { env with Unlock := none } vmConfig disk chg args ec).trace.filter
        (fun e => !e.isUnlockWarning) := by
  obtain ⟨hint, uri, nu, gmi, st, conn, inst, img, port, nvm, run, wc, wait, ⟨code, ssh⟩, del,
      unl⟩ := env
  obtain ⟨u, cd, ks, bg, nc, rm, rdi, q⟩ := vmConfig
  simp only [doRun, doRunBody, doRunSSH, runDeferred, decide_length_pos, List.cons_append,
      List.nil_append, List.append_assoc]
  rcases nu with _ | user
  · exact ⟨rfl, rfl, rfl⟩
  rcases gmi with _ | _ | ⟨sock, ident, _ | _⟩
  · exact ⟨rfl, rfl, rfl⟩
  · exact ⟨rfl, rfl, rfl⟩
  · exact ⟨rfl, rfl, rfl⟩
  rcases st with _ | _; swap
  · exact ⟨rfl, rfl, rfl⟩
  rcases conn with _ | ctx
  · exact ⟨rfl, rfl, rfl⟩
  rcases args with _ | ⟨idOrName, cmd⟩
  · exact ⟨rfl, rfl, rfl⟩
  rcases inst with _ | _; swap
  · exact ⟨rfl, rfl, rfl⟩
  rcases port with _ | sshPort
  · exact ⟨rfl, rfl, rfl⟩
  rcases nvm with _ | _; swap
  · exact ⟨rfl, rfl, rfl⟩
  rcases v with _ | _
  all_goals (rcases run with _ | _; swap; · exact ⟨rfl, rfl, rfl⟩)
  all_goals (rcases wc with _ | _; swap; · exact ⟨rfl, rfl, rfl⟩)
  all_goals (rcases bg with _ | _; swap; · exact ⟨rfl, rfl, rfl⟩)
  all_goals rcases q with _ | _
  all_goals (rcases wait with _ | _; swap; · exact ⟨rfl, rfl, rfl⟩)
  all_goals (rcases ssh with _ | _; swap; · exact ⟨rfl, rfl, rfl⟩)
  all_goals rcases rm with _ | _
  all_goals rcases cmd with _ | ⟨c, cs⟩
  all_goals rcases del with _ | _
  all_goals exact ⟨rfl, rfl, rfl⟩

/-- C5: replacing the outcome of `Unlock` by any other changes neither the error
`doRun` returns nor `ExitCode`; the two runs perform the same actions up to the
warning logged for a failed unlock. -/
theorem C5_unlock_outcome_irrelevant (env : Env) (vmConfig : osVmConfig)
    (disk : DiskImageConfig) (chg : Bool) (args : List String) (ec : Int)
    (u₁ u₂ : Option GoError) :
    (doRun { env with Unlock := u₁ } vmConfig disk chg args ec).outcome
      = (doRun { env with Unlock := u₂ } vmConfig disk chg args ec).outcome
    ∧ (doRun { env with Unlock := u₁ } vmConfig disk chg args ec).ExitCode
      = (doRun { env with Unlock := u₂ } vmConfig disk chg args ec).ExitCode
    ∧ (doRun { env with Unlock := u₁ } vmConfig disk chg args ec).trace.filter
        (fun e => !e.isUnlockWarning)
      = (doRun { env with Unlock := u₂ } vmConfig disk chg args ec).trace.filter
        (fun e => !e.isUnlockWarning) := by
  obtain ⟨a1, a2, a3⟩ := unlock_outcome_aux env vmConfig disk chg args ec u₁
  obtain ⟨b1, b2, b3⟩ := unlock_outcome_aux env vmConfig disk chg args ec u₂
  exact ⟨a1.trans b1.symm, a2.trans b2.symm, a3.trans b3.symm⟩

/-- On the control thread: after `vm.NewVM` succeeded, `CloseConnection` and
`Unlock` are each called exactly once and are the last two VM operations of
`doRun`, in that order. -/
theorem cleanup_closes_then_unlocks_seq (env : Env) (vmConfig : osVmConfig)
    (disk : DiskImageConfig) (chg : Bool) (args : List String) (ec : Int)
    (hinv : invoked (doRun env vmConfig disk chg args ec) .NewVM)
    (hvm : env.NewVM = none) :
    (doRun env vmConfig disk chg args ec).trace.count Event.CloseConnection = 1
    ∧ (doRun env vmConfig disk chg args ec).trace.count Event.Unlock = 1
    ∧ [Event.CloseConnection, Event.Unlock] <:+
        (doRun env vmConfig disk chg args ec).trace.filter Event.isVMOp := by
  revert hinv hvm
  obtain ⟨hint, uri, nu, gmi, st, conn, inst, img, port, nvm, run, wc, wait, ⟨code, ssh⟩, del,
      unl⟩ := env
  obtain ⟨u, cd, ks, bg, nc, rm, rdi, q⟩ := vmConfig
  simp only [doRun, doRunBody, doRunSSH, runDeferred, decide_length_pos, List.cons_append,
      List.nil_append, List.append_assoc]
  rcases nu with _ | user
  · exact of_decide_eq_true rfl
  rcases gmi with _ | _ | ⟨sock, ident, _ | _⟩
  · exact of_decide_eq_true rfl
  · exact of_decide_eq_true rfl
  · exact of_decide_eq_true rfl
  rcases st with _ | _; swap
  · exact of_decide_eq_true rfl
  rcases conn with _ | ctx
  · exact of_decide_eq_true rfl
  rcases args with _ | ⟨idOrName, cmd⟩
  · exact of_decide_eq_true rfl
  rcases inst with _ | _; swap
  · exact of_decide_eq_true rfl
  rcases port with _ | sshPort
  · exact of_decide_eq_true rfl
  rcases nvm with _ | _; swap
  · exact of_decide_eq_true rfl
  rcases unl with _ | _
  all_goals (rcases run with _ | _; swap; · exact of_decide_eq_true rfl)
  all_goals (rcases wc with _ | _; swap; · exact of_decide_eq_true rfl)
  all_goals (rcases bg with _ | _; swap; · exact of_decide_eq_true rfl)
  all_goals rcases q with _ | _
  all_goals (rcases wait with _ | _; swap; · exact of_decide_eq_true rfl)
  all_goals (rcases ssh with _ | _; swap; · exact of_decide_eq_true rfl)
  all_goals rcases rm with _ | _
  all_goals rcases cmd with _ | ⟨c, cs⟩
  all_goals rcases del with _ | _
  all_goals exact of_decide_eq_true rfl

/-- Inserting actions of the console goroutine leaves the actions of the
control thread as they are. -/
theorem spliceAt_control (k : Nat) (ins l : List Action)
    (h : ins.filterMap Action.control? = []) :
    (spliceAt k ins l).filterMap Action.control? = l.filterMap Action.control? := by
  induction l generalizing k with
  | nil => simpa [spliceAt] using h
  | cons a l ih =>
    cases k with
    | zero => simp [spliceAt, List.filterMap_append, h]
    | succ k => simp [spliceAt, List.filterMap_cons, ih]

/-- The control-thread actions of a trace are its events. -/
theorem map_control (t : List Event) : (t.map Action.control).filterMap Action.control? = t := by
  induction t with
  | nil => rfl
  | cons e t ih => simp [Action.control?, ih]

/-- Merging the console goroutine in leaves the actions of the control thread
as they are. -/
theorem runConsole_control (s : ConsoleSchedule) (rest : List Action) :
    (runConsole s rest).filterMap Action.control? = rest.filterMap Action.control? := by
  obtain ⟨enter, failure⟩ := s
  rcases enter with _ | k
  · rfl
  · rcases failure with _ | ⟨j, err⟩
    · exact spliceAt_control k _ rest rfl
    · exact (spliceAt_control (k + 1 + j) [Action.console _] _ rfl).trans
        (spliceAt_control k _ rest rfl)

/-- Whatever the schedule, the control-thread actions of the process are the
trace of `doRun`, in the same order. -/
theorem observed_control (s : ConsoleSchedule) (t : List Event) :
    (observed s t).filterMap Action.control? = t := by
  induction t with
  | nil => rfl
  | cons e t ih =>
    by_cases he : e = Event.goPrintConsole
    · rw [observed, if_pos he, List.filterMap_cons]
      simp only [Action.control?]
      rw [runConsole_control, map_control]
    · rw [observed, if_neg he, List.filterMap_cons]
      simp only [Action.control?]
      rw [ih]

/-- A control-thread action occurs as often as its event. -/
theorem count_control (e : Event) (l : List Action) :
    l.count (Action.control e) = (l.filterMap Action.control?).count e := by
  induction l with
  | nil => rfl
  | cons a l ih =>
    cases a with
    | control x =>
      by_cases hx : x = e
      · simp [Action.control?, hx, ih]
      · simp [Action.control?, hx, ih, List.count_cons]
    | console x => simp [Action.control?, ih, List.count_cons]

/-- The VM operations of the control thread, read off the actions of the
process. -/
theorem filter_control_vmops (l : List Action) :
    l.filter (fun a => a.isVMOp && !a.isConsole)
      = ((l.filterMap Action.control?).filter Event.isVMOp).map Action.control := by
  induction l with
  | nil => rfl
  | cons a l ih =>
    rw [List.filter_cons, ih]
    cases a with
    | control x =>
      cases hx : x.isVMOp <;> simp [Action.control?, Action.isVMOp, Action.isConsole, hx]
    | console x => cases x <;> simp [Action.control?, Action.isVMOp, Action.isConsole]

/-- C6 (as stated, refuted): in a foreground, non-quiet run whose readiness wait
fails, the console goroutine may call `bootcVM.PrintConsole()` only after the
control thread has performed three more actions (`WaitForSSHToBeReady`,
`CloseConnection`, `Unlock`): a VM operation is then invoked after `Unlock`,
and the VM operations of the process do not end with `CloseConnection`,
`Unlock`. -/
theorem C6_counterexample :
    ((observed { enter := some 3, failure := none }
        (doRun { envOk with WaitForSSHToBeReady := some (.New "timeout") }
          defaultConfig defaultDisk false ["quay.io/img"] 0).trace).filter
      Action.isVMOp).getLast? = some (Action.console ConsoleEvent.PrintConsole)
    ∧ ¬ ([Action.control Event.CloseConnection, Action.control Event.Unlock] <:+
        (observed { enter := some 3, failure := none }
          (doRun { envOk with WaitForSSHToBeReady := some (.New "timeout") }
            defaultConfig defaultDisk false ["quay.io/img"] 0).trace).filter Action.isVMOp) := by
  decide

/-- C6 (amended): on every exit path taken after `vm.NewVM` succeeded and for
every schedule of the console goroutine, `CloseConnection` and `Unlock` are
each invoked exactly once, and the VM operations of the control thread end
with `CloseConnection` immediately followed by `Unlock`; the only VM operation
that may come after them is the `PrintConsole` call of the console goroutine. -/
theorem C6_cleanup_closes_then_unlocks (env : Env) (vmConfig : osVmConfig)
    (disk : DiskImageConfig) (chg : Bool) (args : List String) (ec : Int)
    (s : ConsoleSchedule)
    (hinv : invoked (doRun env vmConfig disk chg args ec) .NewVM)
    (hvm : env.NewVM = none) :
    (observed s (doRun env vmConfig disk chg args ec).trace).count
        (Action.control Event.CloseConnection) = 1
    ∧ (observed s (doRun env vmConfig disk chg args ec).trace).count
        (Action.control Event.Unlock) = 1
    ∧ [Action.control Event.CloseConnection, Action.control Event.Unlock] <:+
        (observed s (doRun env vmConfig disk chg args ec).trace).filter
          (fun a => a.isVMOp && !a.isConsole) := by
  obtain ⟨h1, h2, h3⟩ := cleanup_closes_then_unlocks_seq env vmConfig disk chg args ec hinv hvm
  refine ⟨?_, ?_, ?_⟩
  · rw [count_control, observed_control]
    exact h1
  · rw [count_control, observed_control]
    exact h2
  · rw [filter_control_vmops, observed_control]
    exact List.IsSuffix.map Action.control h3

/-- C6 (amended) at a concrete input: the readiness wait times out and the
console goroutine calls `PrintConsole` after `Unlock`, then logs its error. -/
theorem C6_witness :
    (observed { enter := some 3, failure := some (0, .New "stream closed") }
        (doRun { envOk with WaitForSSHToBeReady := some (.New "timeout") }
          defaultConfig defaultDisk false ["quay.io/img"] 0).trace).count
        (Action.control Event.CloseConnection) = 1
    ∧ (observed { enter := some 3, failure := some (0, .New "stream closed") }
        (doRun { envOk with WaitForSSHToBeReady := some (.New "timeout") }
          defaultConfig defaultDisk false ["quay.io/img"] 0).trace).count
        (Action.control Event.Unlock) = 1
    ∧ [Action.control Event.CloseConnection, Action.control Event.Unlock] <:+
        (observed { enter := some 3, failure := some (0, .New "stream closed") }
          (doRun { envOk with WaitForSSHToBeReady := some (.New "timeout") }
            defaultConfig defaultDisk false ["quay.io/img"] 0).trace).filter
          (fun a => a.isVMOp && !a.isConsole) :=
  C6_cleanup_closes_then_unlocks { envOk with WaitForSSHToBeReady := some (.New "timeout") }
    defaultConfig defaultDisk false ["quay.io/img"] 0
    { enter := some 3, failure := some (0, .New "stream closed") } (by decide) rfl

/-- An outcome is an error exactly when it is a return of a non-nil error. -/
theorem isError_iff (o : Outcome) : o.isError = true ↔ ∃ err, o = .returned (some err) := by
  rcases o with (_ | e) | m <;> simp [Outcome.isError]

/-- In a list of steps with strictly increasing positions, no step lies after
the last one. -/
theorem le_index_of_getLast (l : List Step) (s : Step)
    (hp : List.Pairwise (fun a b => a < b) (l.map Step.index)) (hl : l.getLast? = some s) :
    ∀ t ∈ l, t.index ≤ s.index := by
  obtain ⟨ys, rfl⟩ := List.getLast?_eq_some_iff.mp hl
  rw [List.map_append, List.pairwise_append] at hp
  intro t ht
  rcases List.mem_append.mp ht with h | h
  · exact Nat.le_of_lt (hp.2.2 _ (List.mem_map_of_mem _ h) _ (by simp))
  · rw [List.mem_singleton.mp h]

/-- The calls of steps appear in source order, each at most once; a step that is
invoked and fails is the last step of the run and the run returns an error; a
backend call is only made when machine info and the socket check succeeded;
`vm.NewVM` is only invoked after a successful port allocation; and the steps
invoked are the steps on the path of the run, in source order, up to and
including the first that fails. -/
theorem steps_aux (env : Env) (vmConfig : osVmConfig)
    (disk : DiskImageConfig) (chg : Bool) (args : List String) (ec : Int) :
    List.Pairwise (fun a b => a < b)
      ((doRun env vmConfig disk chg args ec).steps.map Step.index)
    ∧ (∀ s ∈ (doRun env vmConfig disk chg args ec).steps, s.fails env = true →
        (doRun env vmConfig disk chg args ec).outcome.isError = true
        ∧ (doRun env vmConfig disk chg args ec).steps.getLast? = some s)
    ∧ ((∃ e ∈ (doRun env vmConfig disk chg args ec).trace, e.isBackendCall = true) →
        Step.MachineInfo.fails env = false ∧ Step.SocketStat.fails env = false)
    ∧ (invoked (doRun env vmConfig disk chg args ec) .NewVM →
        Step.PortAllocation.fails env = false)
    ∧ (doRun env vmConfig disk chg args ec).steps
        = upToFirstFailure env (Step.all.filter (fun s => s.enabled vmConfig args)) := by
  obtain ⟨hint, uri, nu, gmi, st, conn, inst, img, port, nvm, run, wc, wait, ⟨code, ssh⟩, del,
      unl⟩ := env
  obtain ⟨u, cd, ks, bg, nc, rm, rdi, q⟩ := vmConfig
  simp only [doRun, doRunBody, doRunSSH, runDeferred, decide_length_pos, List.cons_append,
      List.nil_append, List.append_assoc]
  rcases nu with _ | user
  · exact of_decide_eq_true rfl
  rcases gmi with _ | _ | ⟨sock, ident, _ | _⟩
  · exact of_decide_eq_true rfl
  · exact of_decide_eq_true rfl
  · exact of_decide_eq_true rfl
  rcases st with _ | _; swap
  · exact of_decide_eq_true rfl
  rcases conn with _ | ctx
  · exact of_decide_eq_true rfl
  rcases args with _ | ⟨idOrName, cmd⟩
  · exact of_decide_eq_true rfl
  rcases inst with _ | _; swap
  · exact of_decide_eq_true rfl
  rcases port with _ | sshPort
  · exact of_decide_eq_true rfl
  rcases nvm with _ | _; swap
  · exact of_decide_eq_true rfl
  rcases unl with _ | _
  all_goals (rcases run with _ | _; swap; · exact of_decide_eq_true rfl)
  all_goals (rcases wc with _ | _; swap; · exact of_decide_eq_true rfl)
  all_goals (rcases bg with _ | _; swap; · exact of_decide_eq_true rfl)
  all_goals rcases q with _ | _
  all_goals (rcases wait with _ | _; swap; · exact of_decide_eq_true rfl)
  all_goals (rcases ssh with _ | _; swap; · exact of_decide_eq_true rfl)
  all_goals rcases rm with _ | _
  all_goals rcases cmd with _ | ⟨c, cs⟩
  all_goals rcases del with _ | _
  all_goals exact of_decide_eq_true rfl

/-- For each of these steps: when it is invoked and its collaborator reports an
error, the error `doRun` returns is that error wrapped with the message of
the step (`WriteConfig`: that error itself). -/
theorem step_errors (env : Env) (vmConfig : osVmConfig)
    (disk : DiskImageConfig) (chg : Bool) (args : List String) (ec : Int) :
    (∀ err, env.Install = some err → invoked (doRun env vmConfig disk chg args ec) .Install →
      (doRun env vmConfig disk chg args ec).outcome
        = .returned (some (.Errorf "unable to install bootc image: " err)))
    ∧ (∀ err, env.GetFreeLocalTcpPort = .error err →
      invoked (doRun env vmConfig disk chg args ec) .PortAllocation →
      (doRun env vmConfig disk chg args ec).outcome
        = .returned (some (.Errorf "unable to get free port for SSH: " err)))
    ∧ (∀ err, env.NewVM = some err → invoked (doRun env vmConfig disk chg args ec) .NewVM →
      (doRun env vmConfig disk chg args ec).outcome
        = .returned (some (.Errorf "unable to initialize VM: " err)))
    ∧ (∀ err, env.Run = some err → invoked (doRun env vmConfig disk chg args ec) .Run →
      (doRun env vmConfig disk chg args ec).outcome
        = .returned (some (.Errorf "runBootcVM: " err)))
    ∧ (∀ err, env.WriteConfig = some err →
      invoked (doRun env vmConfig disk chg args ec) .WriteConfig →
      (doRun env vmConfig disk chg args ec).outcome = .returned (some err))
    ∧ (∀ err, env.WaitForSSHToBeReady = some err →
      invoked (doRun env vmConfig disk chg args ec) .ReadinessWait →
      (doRun env vmConfig disk chg args ec).outcome
        = .returned (some (.Errorf "WaitSshReady: " err)))
    ∧ (∀ err, env.RunSSH.2 = some err → invoked (doRun env vmConfig disk chg args ec) .SSH →
      (doRun env vmConfig disk chg args ec).outcome = .returned (some (.Errorf "ssh: " err)))
    ∧ (∀ err, env.Delete = some err → invoked (doRun env vmConfig disk chg args ec) .Delete →
      (doRun env vmConfig disk chg args ec).outcome
        = .returned (some (.Errorf "unable to remove VM from cache: " err))) := by
  obtain ⟨hint, uri, nu, gmi, st, conn, inst, img, port, nvm, run, wc, wait, ⟨code, ssh⟩, del,
      unl⟩ := env
  obtain ⟨u, cd, ks, bg, nc, rm, rdi, q⟩ := vmConfig
  simp only [doRun, doRunBody, doRunSSH, runDeferred, decide_length_pos, List.cons_append,
      List.nil_append, List.append_assoc]
  rcases nu with _ | user
  · (refine ⟨?_, ?_, ?_, ?_, ?_, ?_, ?_, ?_⟩ <;> intro err h hinv <;> first | (cases h <;> rfl) | exact absurd hinv (of_decide_eq_true rfl))
  rcases gmi with _ | _ | ⟨sock, ident, _ | _⟩
  · (refine ⟨?_, ?_, ?_, ?_, ?_, ?_, ?_, ?_⟩ <;> intro err h hinv <;> first | (cases h <;> rfl) | exact absurd hinv (of_decide_eq_true rfl))
  · (refine ⟨?_, ?_, ?_, ?_, ?_, ?_, ?_, ?_⟩ <;> intro err h hinv <;> first | (cases h <;> rfl) | exact absurd hinv (of_decide_eq_true rfl))
  · (refine ⟨?_, ?_, ?_, ?_, ?_, ?_, ?_, ?_⟩ <;> intro err h hinv <;> first | (cases h <;> rfl) | exact absurd hinv (of_decide_eq_true rfl))
  rcases st with _ | _; swap
  · (refine ⟨?_, ?_, ?_, ?_, ?_, ?_, ?_, ?_⟩ <;> intro err h hinv <;> first | (cases h <;> rfl) | exact absurd hinv (of_decide_eq_true rfl))
  rcases conn with _ | ctx
  · (refine ⟨?_, ?_, ?_, ?_, ?_, ?_, ?_, ?_⟩ <;> intro err h hinv <;> first | (cases h <;> rfl) | exact absurd hinv (of_decide_eq_true rfl))
  rcases args with _ | ⟨idOrName, cmd⟩
  · (refine ⟨?_, ?_, ?_, ?_, ?_, ?_, ?_, ?_⟩ <;> intro err h hinv <;> first | (cases h <;> rfl) | exact absurd hinv (of_decide_eq_true rfl))
  rcases inst with _ | _; swap
  · (refine ⟨?_, ?_, ?_, ?_, ?_, ?_, ?_, ?_⟩ <;> intro err h hinv <;> first | (cases h <;> rfl) | exact absurd hinv (of_decide_eq_true rfl))
  rcases port with _ | sshPort
  · (refine ⟨?_, ?_, ?_, ?_, ?_, ?_, ?_, ?_⟩ <;> intro err h hinv <;> first | (cases h <;> rfl) | exact absurd hinv (of_decide_eq_true rfl))
  rcases nvm with _ | _; swap
  · (refine ⟨?_, ?_, ?_, ?_, ?_, ?_, ?_, ?_⟩ <;> intro err h hinv <;> first | (cases h <;> rfl) | exact absurd hinv (of_decide_eq_true rfl))
  rcases unl with _ | _
  all_goals (rcases run with _ | _; swap; · (refine ⟨?_, ?_, ?_, ?_, ?_, ?_, ?_, ?_⟩ <;> intro err h hinv <;> first | (cases h <;> rfl) | exact absurd hinv (of_decide_eq_true rfl)))
  all_goals (rcases wc with _ | _; swap; · (refine ⟨?_, ?_, ?_, ?_, ?_, ?_, ?_, ?_⟩ <;> intro err h hinv <;> first | (cases h <;> rfl) | exact absurd hinv (of_decide_eq_true rfl)))
  all_goals (rcases bg with _ | _; swap; · (refine ⟨?_, ?_, ?_, ?_, ?_, ?_, ?_, ?_⟩ <;> intro err h hinv <;> first | (cases h <;> rfl) | exact absurd hinv (of_decide_eq_true rfl)))
  all_goals rcases q with _ | _
  all_goals (rcases wait with _ | _; swap; · (refine ⟨?_, ?_, ?_, ?_, ?_, ?_, ?_, ?_⟩ <;> intro err h hinv <;> first | (cases h <;> rfl) | exact absurd hinv (of_decide_eq_true rfl)))
  all_goals (rcases ssh with _ | _; swap; · (refine ⟨?_, ?_, ?_, ?_, ?_, ?_, ?_, ?_⟩ <;> intro err h hinv <;> first | (cases h <;> rfl) | exact absurd hinv (of_decide_eq_true rfl)))
  all_goals rcases rm with _ | _
  all_goals rcases cmd with _ | ⟨c, cs⟩
  all_goals rcases del with _ | _
  all_goals (refine ⟨?_, ?_, ?_, ?_, ?_, ?_, ?_, ?_⟩ <;> intro err h hinv <;> first | (cases h <;> rfl) | exact absurd hinv (of_decide_eq_true rfl))

/-- In a list of steps in source order, the steps up to and including the first
failure are those before which no step of the list fails. -/
theorem mem_upToFirstFailure (env : Env) (l : List Step) (s : Step)
    (hp : List.Pairwise (fun a b => a.index < b.index) l) :
    s ∈ upToFirstFailure env l ↔
      (s ∈ l ∧ ∀ t ∈ l, t.index < s.index → t.fails env = false) := by
  induction l with
  | nil => simp [upToFirstFailure]
  | cons a l ih =>
    rw [List.pairwise_cons] at hp
    obtain ⟨ha, hl⟩ := hp
    have ih := ih hl
    cases hfa : a.fails env
    · rw [upToFirstFailure, hfa, if_neg (by simp), List.mem_cons, ih]
      constructor
      · rintro (rfl | ⟨hs, hsl⟩)
        · refine ⟨List.mem_cons_self _ _, ?_⟩
          intro t ht hlt
          rcases List.mem_cons.mp ht with rfl | ht
          · exact hfa
          · exact absurd (ha t ht) (by omega)
        · refine ⟨List.mem_cons_of_mem _ hs, ?_⟩
          intro t ht hlt
          rcases List.mem_cons.mp ht with rfl | ht
          · exact hfa
          · exact hsl t ht hlt
      · rintro ⟨hs, hall⟩
        rcases List.mem_cons.mp hs with rfl | hs
        · exact Or.inl rfl
        · exact Or.inr ⟨hs, fun t ht hlt => hall t (List.mem_cons_of_mem _ ht) hlt⟩
    · rw [upToFirstFailure, hfa, if_pos rfl, List.mem_singleton]
      constructor
      · rintro rfl
        refine ⟨List.mem_cons_self _ _, ?_⟩
        intro t ht hlt
        rcases List.mem_cons.mp ht with rfl | ht
        · exact absurd hlt (by omega)
        · exact absurd (ha t ht) (by omega)
      · rintro ⟨hs, hall⟩
        rcases List.mem_cons.mp hs with rfl | hs
        · rfl
        · have h1 := hall a (List.mem_cons_self _ _) (ha s hs)
          rw [hfa] at h1
          exact Bool.noConfusion h1

/-- From the collaborator outcomes alone: a step is invoked exactly when it is
on the path of the run and no step on the path before it fails. -/
theorem invoked_iff_first_failure (env : Env) (vmConfig : osVmConfig)
    (disk : DiskImageConfig) (chg : Bool) (args : List String) (ec : Int) (s : Step) :
    invoked (doRun env vmConfig disk chg args ec) s ↔
      (s.enabled vmConfig args = true
        ∧ ∀ t : Step, t.enabled vmConfig args = true → t.index < s.index →
          t.fails env = false) := by
  have hall : ∀ t : Step, t ∈ Step.all := by
    intro t
    cases t <;> decide
  have hp : List.Pairwise (fun a b => a.index < b.index)
      (Step.all.filter (fun s => s.enabled vmConfig args)) :=
    List.Pairwise.filter _ (by decide)
  rw [invoked_iff_mem_steps, (steps_aux env vmConfig disk chg args ec).2.2.2.2,
    mem_upToFirstFailure env _ s hp]
  constructor
  · rintro ⟨hs, h⟩
    refine ⟨(List.mem_filter.mp hs).2, ?_⟩
    intro t ht hlt
    exact h t (List.mem_filter.mpr ⟨hall t, ht⟩) hlt
  · rintro ⟨hs, h⟩
    refine ⟨List.mem_filter.mpr ⟨hall s, hs⟩, ?_⟩
    intro t ht hlt
    exact h t (List.mem_filter.mp ht).2 hlt

/-- The exits of lines 64-100: a user-lookup error is returned wrapped and a
`GetMachineInfo` error is returned as it is, both without the hint; when machine
info is nil, the machine is not rootful, the socket is missing or the
connection fails, `utils.PodmanMachineErrorMessage` is printed and an error is
returned. -/
theorem hint_printed (env : Env) (vmConfig : osVmConfig)
    (disk : DiskImageConfig) (chg : Bool) (args : List String) (ec : Int) :
    (∀ err, env.NewUser = .error err →
      (doRun env vmConfig disk chg args ec).outcome
        = .returned (some (.Errorf "unable to get user: " err))
      ∧ Event.println env.PodmanMachineErrorMessage ∉ (doRun env vmConfig disk chg args ec).trace)
    ∧ (∀ err, env.GetMachineInfo = .error err →
      invoked (doRun env vmConfig disk chg args ec) .MachineInfo →
      (doRun env vmConfig disk chg args ec).outcome = .returned (some err)
      ∧ Event.println env.PodmanMachineErrorMessage ∉ (doRun env vmConfig disk chg args ec).trace)
    ∧ (env.GetMachineInfo = .ok none → invoked (doRun env vmConfig disk chg args ec) .MachineInfo →
      Event.println env.PodmanMachineErrorMessage ∈ (doRun env vmConfig disk chg args ec).trace
      ∧ (doRun env vmConfig disk chg args ec).outcome.isError = true)
    ∧ (∀ m, env.GetMachineInfo = .ok (some m) → m.Rootful = false →
      invoked (doRun env vmConfig disk chg args ec) .MachineInfo →
      Event.println env.PodmanMachineErrorMessage ∈ (doRun env vmConfig disk chg args ec).trace
      ∧ (doRun env vmConfig disk chg args ec).outcome.isError = true)
    ∧ (∀ err, env.Stat = some err → invoked (doRun env vmConfig disk chg args ec) .SocketStat →
      Event.println env.PodmanMachineErrorMessage ∈ (doRun env vmConfig disk chg args ec).trace
      ∧ (doRun env vmConfig disk chg args ec).outcome = .returned (some err))
    ∧ (∀ err, env.NewConnectionWithIdentity = .error err →
      invoked (doRun env vmConfig disk chg args ec) .Connect →
      Event.println env.PodmanMachineErrorMessage ∈ (doRun env vmConfig disk chg args ec).trace
      ∧ (doRun env vmConfig disk chg args ec).outcome = .returned (some err)) := by
  obtain ⟨hint, uri, nu, gmi, st, conn, inst, img, port, nvm, run, wc, wait, ssh, del, unl⟩ := env
  simp only [doRun, List.cons_append, List.nil_append]
  rcases nu with _ | user
  · simp [invoked, Event.step]
  rcases gmi with _ | _ | ⟨sock, ident, _ | _⟩
  · simp [invoked, Event.step]
  · simp [invoked, Event.step, Outcome.isError]
  · simp [invoked, Event.step, Outcome.isError]
  rcases st with _ | _; swap
  · simp [invoked, Event.step]
  rcases conn with _ | ctx
  · simp [invoked, Event.step]
  · simp

/-- C7: the calls of the steps of `doRun` occur in source order, each at most
once.  A step is invoked exactly when it is on the path of the run and no step
before it fails; so a step that is the first to fail, by the collaborator
outcomes alone, makes `doRun` return a non-nil error, and no later step is
invoked.  Every step invoked before another one succeeded; when the machine is
not rootful or its socket is missing no backend call is made; and when
`GetFreeLocalTcpPort` fails `vm.NewVM` is not invoked and the wrapped
port-allocation error is returned. -/
theorem C7_steps_ordered_first_failure_aborts (env : Env) (vmConfig : osVmConfig)
    (disk : DiskImageConfig) (chg : Bool) (args : List String) (ec : Int) :
    List.Pairwise (fun a b => a < b)
      ((doRun env vmConfig disk chg args ec).steps.map Step.index)
    ∧ (∀ s, invoked (doRun env vmConfig disk chg args ec) s ↔
        (s.enabled vmConfig args = true
          ∧ ∀ t : Step, t.enabled vmConfig args = true → t.index < s.index →
            t.fails env = false))
    ∧ (∀ s : Step, s.enabled vmConfig args = true →
        (∀ t : Step, t.enabled vmConfig args = true → t.index < s.index →
          t.fails env = false) →
        s.fails env = true →
        (∃ err, (doRun env vmConfig disk chg args ec).outcome = .returned (some err))
        ∧ ∀ t : Step, s.index < t.index → ¬ invoked (doRun env vmConfig disk chg args ec) t)
    ∧ (∀ s, invoked (doRun env vmConfig disk chg args ec) s → s.fails env = true →
        (∃ err, (doRun env vmConfig disk chg args ec).outcome = .returned (some err))
        ∧ ∀ t, invoked (doRun env vmConfig disk chg args ec) t → t.index ≤ s.index)
    ∧ (∀ s t, invoked (doRun env vmConfig disk chg args ec) s →
        invoked (doRun env vmConfig disk chg args ec) t →
        t.index < s.index → t.fails env = false)
    ∧ (∀ m, env.GetMachineInfo = .ok (some m) → m.Rootful = false →
        ∀ e ∈ (doRun env vmConfig disk chg args ec).trace, e.isBackendCall = false)
    ∧ (∀ err, env.Stat = some err →
        ∀ e ∈ (doRun env vmConfig disk chg args ec).trace, e.isBackendCall = false)
    ∧ (∀ err, env.GetFreeLocalTcpPort = .error err →
        ¬ invoked (doRun env vmConfig disk chg args ec) .NewVM
        ∧ (invoked (doRun env vmConfig disk chg args ec) .PortAllocation →
          (doRun env vmConfig disk chg args ec).outcome
            = .returned (some (.Errorf "unable to get free port for SSH: " err)))) := by
  obtain ⟨hp, hf, hb, hv, _⟩ := steps_aux env vmConfig disk chg args ec
  have hlast : ∀ s, invoked (doRun env vmConfig disk chg args ec) s → s.fails env = true →
      ∀ t, invoked (doRun env vmConfig disk chg args ec) t → t.index ≤ s.index := by
    intro s hs hfs t ht
    exact le_index_of_getLast _ s hp (hf s ((invoked_iff_mem_steps _ _).mp hs) hfs).2 t
      ((invoked_iff_mem_steps _ _).mp ht)
  refine ⟨hp, invoked_iff_first_failure env vmConfig disk chg args ec, ?_, ?_, ?_, ?_, ?_, ?_⟩
  · intro s hen hbefore hfs
    have hs : invoked (doRun env vmConfig disk chg args ec) s :=
      (invoked_iff_first_failure env vmConfig disk chg args ec s).mpr ⟨hen, hbefore⟩
    refine ⟨(isError_iff _).mp (hf s ((invoked_iff_mem_steps _ _).mp hs) hfs).1, ?_⟩
    intro t hlt ht
    exact absurd (hlast s hs hfs t ht) (Nat.not_le.mpr hlt)
  · intro s hs hfs
    exact ⟨(isError_iff _).mp (hf s ((invoked_iff_mem_steps _ _).mp hs) hfs).1, hlast s hs hfs⟩
  · intro s t hs ht hlt
    cases hft : t.fails env
    · rfl
    · exact absurd (hlast t ht hft s hs) (Nat.not_le.mpr hlt)
  · intro m hm hr e he
    cases hbc : e.isBackendCall
    · rfl
    · have h1 := (hb ⟨e, he, hbc⟩).1
      simp [Step.fails, hm, hr] at h1
  · intro err hst e he
    cases hbc : e.isBackendCall
    · rfl
    · have h2 := (hb ⟨e, he, hbc⟩).2
      simp [Step.fails, hst] at h2
  · intro err hport
    refine ⟨?_, (step_errors env vmConfig disk chg args ec).2.1 err hport⟩
    intro hvm
    have h3 := hv hvm
    simp [Step.fails, hport] at h3

/-- C7 at concrete inputs, from the collaborator outcomes alone: a run whose
`Run` fails, a run whose `WriteConfig` fails, a foreground run whose readiness
wait fails, one whose SSH fails and one whose `Delete` fails each return a
non-nil error; and after a failing `Run` the config write is not invoked. -/
theorem C7_witness :
    (∃ err, (doRun { envOk with Run := some (.New "boot failed") }
        defaultConfig defaultDisk false ["quay.io/img"] 0).outcome = .returned (some err))
    ∧ ¬ invoked (doRun { envOk with Run := some (.New "boot failed") }
        defaultConfig defaultDisk false ["quay.io/img"] 0) .WriteConfig
    ∧ (∃ err, (doRun { envOk with WriteConfig := some (.New "disk full") }
        defaultConfig defaultDisk false ["quay.io/img"] 0).outcome = .returned (some err))
    ∧ (∃ err, (doRun { envOk with WaitForSSHToBeReady := some (.New "timeout") }
        defaultConfig defaultDisk false ["quay.io/img"] 0).outcome = .returned (some err))
    ∧ (∃ err, (doRun { envOk with RunSSH := (1, some (.New "connection reset")) }
        defaultConfig defaultDisk false ["quay.io/img"] 0).outcome = .returned (some err))
    ∧ (∃ err, (doRun { envOk with Delete := some (.New "domain busy") }
        defaultConfig defaultDisk false ["quay.io/img", "true"] 0).outcome
          = .returned (some err)) :=
  ⟨((C7_steps_ordered_first_failure_aborts { envOk with Run := some (.New "boot failed") }
      defaultConfig defaultDisk false ["quay.io/img"] 0).2.2.1 .Run rfl
      (fun t _ hlt => by cases t <;> first | rfl | exact absurd hlt (by decide)) rfl).1,
   ((C7_steps_ordered_first_failure_aborts { envOk with Run := some (.New "boot failed") }
      defaultConfig defaultDisk false ["quay.io/img"] 0).2.2.1 .Run rfl
      (fun t _ hlt => by cases t <;> first | rfl | exact absurd hlt (by decide)) rfl).2
      .WriteConfig (by decide),
   ((C7_steps_ordered_first_failure_aborts { envOk with WriteConfig := some (.New "disk full") }
      defaultConfig defaultDisk false ["quay.io/img"] 0).2.2.1 .WriteConfig rfl
      (fun t _ hlt => by cases t <;> first | rfl | exact absurd hlt (by decide)) rfl).1,
   ((C7_steps_ordered_first_failure_aborts
      { envOk with WaitForSSHToBeReady := some (.New "timeout") }
      defaultConfig defaultDisk false ["quay.io/img"] 0).2.2.1 .ReadinessWait rfl
      (fun t _ hlt => by cases t <;> first | rfl | exact absurd hlt (by decide)) rfl).1,
   ((C7_steps_ordered_first_failure_aborts
      { envOk with RunSSH := (1, some (.New "connection reset")) }
      defaultConfig defaultDisk false ["quay.io/img"] 0).2.2.1 .SSH rfl
      (fun t _ hlt => by cases t <;> first | rfl | exact absurd hlt (by decide)) rfl).1,
   ((C7_steps_ordered_first_failure_aborts { envOk with Delete := some (.New "domain busy") }
      defaultConfig defaultDisk false ["quay.io/img", "true"] 0).2.2.1 .Delete rfl
      (fun t _ hlt => by cases t <;> first | rfl | exact absurd hlt (by decide)) rfl).1⟩

/-- C8 (as stated, refuted): a `WriteConfig` failure is returned as it is, not
wrapped with a message naming the step; and an error of `utils.GetMachineInfo`,
a failure of host validation, is returned without the host-setup hint being
printed. -/
theorem C8_counterexample :
    (invoked (doRun { envOk with WriteConfig := some (.New "disk full") }
      defaultConfig defaultDisk false ["quay.io/img"] 0) .WriteConfig
    ∧ (doRun { envOk with WriteConfig := some (.New "disk full") }
      defaultConfig defaultDisk false ["quay.io/img"] 0).outcome
        = .returned (some (.New "disk full"))
    ∧ ∀ msg, (doRun { envOk with WriteConfig := some (.New "disk full") }
      defaultConfig defaultDisk false ["quay.io/img"] 0).outcome
        ≠ .returned (some (.Errorf msg (.New "disk full"))))
    ∧ (Step.MachineInfo.fails { envOk with GetMachineInfo := .error (.New "no machine") } = true
    ∧ (doRun { envOk with GetMachineInfo := .error (.New "no machine") }
      defaultConfig defaultDisk false ["quay.io/img"] 0).outcome
        = .returned (some (.New "no machine"))
    ∧ Event.println envOk.PodmanMachineErrorMessage ∉
        (doRun { envOk with GetMachineInfo := .error (.New "no machine") }
          defaultConfig defaultDisk false ["quay.io/img"] 0).trace) := by
  have h : (doRun { envOk with WriteConfig := some (.New "disk full") }
      defaultConfig defaultDisk false ["quay.io/img"] 0).outcome
        = .returned (some (.New "disk full")) := by decide
  refine ⟨⟨by decide, h, ?_⟩, by decide⟩
  intro msg hc
  rw [h] at hc
  cases hc

/-- C8 (amended), for every failing step of `doRun`: a user-lookup failure is
returned wrapped with `unable to get user: ` and an error of
`utils.GetMachineInfo` is returned as it is, both without the hint; when machine
info is nil, the machine is not rootful, the socket is missing or the
connection fails, the host-setup hint is printed and an error is returned; a
failure of disk install, port allocation, VM creation, VM run, readiness wait,
SSH exec or delete is returned wrapped with the message of the step; a
`WriteConfig` failure is returned as it is.  A step is invoked exactly when it
is on the path of the run and no step before it fails. -/
theorem C8_failure_reports (env : Env) (vmConfig : osVmConfig)
    (disk : DiskImageConfig) (chg : Bool) (args : List String) (ec : Int) :
    ((∀ err, env.NewUser = .error err →
      (doRun env vmConfig disk chg args ec).outcome
        = .returned (some (.Errorf "unable to get user: " err))
      ∧ Event.println env.PodmanMachineErrorMessage ∉ (doRun env vmConfig disk chg args ec).trace)
    ∧ (∀ err, env.GetMachineInfo = .error err →
      invoked (doRun env vmConfig disk chg args ec) .MachineInfo →
      (doRun env vmConfig disk chg args ec).outcome = .returned (some err)
      ∧ Event.println env.PodmanMachineErrorMessage ∉ (doRun env vmConfig disk chg args ec).trace)
    ∧ (env.GetMachineInfo = .ok none → invoked (doRun env vmConfig disk chg args ec) .MachineInfo →
      Event.println env.PodmanMachineErrorMessage ∈ (doRun env vmConfig disk chg args ec).trace
      ∧ (doRun env vmConfig disk chg args ec).outcome.isError = true)
    ∧ (∀ m, env.GetMachineInfo = .ok (some m) → m.Rootful = false →
      invoked (doRun env vmConfig disk chg args ec) .MachineInfo →
      Event.println env.PodmanMachineErrorMessage ∈ (doRun env vmConfig disk chg args ec).trace
      ∧ (doRun env vmConfig disk chg args ec).outcome.isError = true)
    ∧ (∀ err, env.Stat = some err → invoked (doRun env vmConfig disk chg args ec) .SocketStat →
      Event.println env.PodmanMachineErrorMessage ∈ (doRun env vmConfig disk chg args ec).trace
      ∧ (doRun env vmConfig disk chg args ec).outcome = .returned (some err))
    ∧ (∀ err, env.NewConnectionWithIdentity = .error err →
      invoked (doRun env vmConfig disk chg args ec) .Connect →
      Event.println env.PodmanMachineErrorMessage ∈ (doRun env vmConfig disk chg args ec).trace
      ∧ (doRun env vmConfig disk chg args ec).outcome = .returned (some err)))
    ∧ ((∀ err, env.Install = some err → invoked (doRun env vmConfig disk chg args ec) .Install →
      (doRun env vmConfig disk chg args ec).outcome
        = .returned (some (.Errorf "unable to install bootc image: " err)))
    ∧ (∀ err, env.GetFreeLocalTcpPort = .error err →
      invoked (doRun env vmConfig disk chg args ec) .PortAllocation →
      (doRun env vmConfig disk chg args ec).outcome
        = .returned (some (.Errorf "unable to get free port for SSH: " err)))
    ∧ (∀ err, env.NewVM = some err → invoked (doRun env vmConfig disk chg args ec) .NewVM →
      (doRun env vmConfig disk chg args ec).outcome
        = .returned (some (.Errorf "unable to initialize VM: " err)))
    ∧ (∀ err, env.Run = some err → invoked (doRun env vmConfig disk chg args ec) .Run →
      (doRun env vmConfig disk chg args ec).outcome
        = .returned (some (.Errorf "runBootcVM: " err)))
    ∧ (∀ err, env.WriteConfig = some err →
      invoked (doRun env vmConfig disk chg args ec) .WriteConfig →
      (doRun env vmConfig disk chg args ec).outcome = .returned (some err))
    ∧ (∀ err, env.WaitForSSHToBeReady = some err →
      invoked (doRun env vmConfig disk chg args ec) .ReadinessWait →
      (doRun env vmConfig disk chg args ec).outcome
        = .returned (some (.Errorf "WaitSshReady: " err)))
    ∧ (∀ err, env.RunSSH.2 = some err → invoked (doRun env vmConfig disk chg args ec) .SSH →
      (doRun env vmConfig disk chg args ec).outcome = .returned (some (.Errorf "ssh: " err)))
    ∧ (∀ err, env.Delete = some err → invoked (doRun env vmConfig disk chg args ec) .Delete →
      (doRun env vmConfig disk chg args ec).outcome
        = .returned (some (.Errorf "unable to remove VM from cache: " err))))
    ∧ (∀ s, invoked (doRun env vmConfig disk chg args ec) s ↔
        (s.enabled vmConfig args = true
          ∧ ∀ t : Step, t.enabled vmConfig args = true → t.index < s.index →
            t.fails env = false)) :=
  ⟨hint_printed env vmConfig disk chg args ec, step_errors env vmConfig disk chg args ec,
    invoked_iff_first_failure env vmConfig disk chg args ec⟩

/-- C8 (amended) at concrete inputs, from the collaborator outcomes alone: a
failing disk install is returned wrapped, a failing `WriteConfig` is returned
as it is. -/
theorem C8_witness :
    (doRun { envOk with Install := some (.New "pull failed") }
        defaultConfig defaultDisk false ["quay.io/img"] 0).outcome
      = .returned (some (.Errorf "unable to install bootc image: " (.New "pull failed")))
    ∧ (doRun { envOk with WriteConfig := some (.New "disk full") }
        defaultConfig defaultDisk false ["quay.io/img"] 0).outcome
      = .returned (some (.New "disk full")) :=
  ⟨(C8_failure_reports { envOk with Install := some (.New "pull failed") }
      defaultConfig defaultDisk false ["quay.io/img"] 0).2.1.1 _ rfl
      (((C8_failure_reports { envOk with Install := some (.New "pull failed") }
        defaultConfig defaultDisk false ["quay.io/img"] 0).2.2 .Install).mpr
        ⟨rfl, fun t _ hlt => by cases t <;> first | rfl | exact absurd hlt (by decide)⟩),
   (C8_failure_reports { envOk with WriteConfig := some (.New "disk full") }
      defaultConfig defaultDisk false ["quay.io/img"] 0).2.1.2.2.2.2.1 _ rfl
      (((C8_failure_reports { envOk with WriteConfig := some (.New "disk full") }
        defaultConfig defaultDisk false ["quay.io/img"] 0).2.2 .WriteConfig).mpr
        ⟨rfl, fun t _ hlt => by cases t <;> first | rfl | exact absurd hlt (by decide)⟩)⟩

/-- C9 (the code at the failing input): with `--no-creds` and without
`--background`, every collaborator succeeding, `doRun` starts the console
goroutine, waits for SSH and runs SSH; the run with `--background` does none of
that, so the two runs differ. -/
theorem C9_no_creds_runs_foreground :
    Event.goPrintConsole ∈ (doRun envOk { defaultConfig with NoCredentials := true }
        defaultDisk false ["quay.io/img"] 0).trace
    ∧ Event.WaitForSSHToBeReady ∈ (doRun envOk { defaultConfig with NoCredentials := true }
        defaultDisk false ["quay.io/img"] 0).trace
    ∧ Event.RunSSH [] ∈ (doRun envOk { defaultConfig with NoCredentials := true }
        defaultDisk false ["quay.io/img"] 0).trace
    ∧ Event.WaitForSSHToBeReady ∉
        (doRun envOk { defaultConfig with NoCredentials := true, Background := true }
          defaultDisk false ["quay.io/img"] 0).trace
    ∧ (doRun envOk { defaultConfig with NoCredentials := true }
        defaultDisk false ["quay.io/img"] 0).trace
      ≠ (doRun envOk { defaultConfig with NoCredentials := true, Background := true }
        defaultDisk false ["quay.io/img"] 0).trace := by
  decide

/-- In a foreground run that reached the interactive branch the readiness wait
is invoked exactly once; SSH is run after it exactly when it succeeded; the
console goroutine is started exactly when `Quiet` is false, at most once, and
before the readiness wait. -/
theorem interactive_aux (env : Env) (vmConfig : osVmConfig)
    (disk : DiskImageConfig) (chg : Bool) (args : List String) (ec : Int)
    (hfg : vmConfig.Background = false)
    (hinv : invoked (doRun env vmConfig disk chg args ec) .WriteConfig)
    (hwc : env.WriteConfig = none) :
    (doRun env vmConfig disk chg args ec).trace.count Event.WaitForSSHToBeReady = 1
    ∧ invoked (doRun env vmConfig disk chg args ec) .ReadinessWait
    ∧ (env.WaitForSSHToBeReady.isSome = true →
        ¬ invoked (doRun env vmConfig disk chg args ec) .SSH)
    ∧ (env.WaitForSSHToBeReady = none →
        invoked (doRun env vmConfig disk chg args ec) .SSH
        ∧ precedes (fun e => e == Event.WaitForSSHToBeReady) (fun e => e.step == some Step.SSH)
            (doRun env vmConfig disk chg args ec).trace = true)
    ∧ (Event.goPrintConsole ∈ (doRun env vmConfig disk chg args ec).trace ↔
        vmConfig.Quiet = false)
    ∧ (doRun env vmConfig disk chg args ec).trace.count Event.goPrintConsole ≤ 1
    ∧ (Event.goPrintConsole ∈ (doRun env vmConfig disk chg args ec).trace →
        precedes (fun e => e == Event.goPrintConsole) (fun e => e == Event.WaitForSSHToBeReady)
          (doRun env vmConfig disk chg args ec).trace = true) := by
  revert hinv
  obtain ⟨hint, uri, nu, gmi, st, conn, inst, img, port, nvm, run, wc, wait, ⟨code, ssh⟩, del,
      unl⟩ := env
  obtain ⟨u, cd, ks, bg, nc, rm, rdi, q⟩ := vmConfig
  obtain rfl : bg = false := hfg
  obtain rfl : wc = none := hwc
  simp only [doRun, doRunBody, doRunSSH, runDeferred, decide_length_pos, List.cons_append,
      List.nil_append, List.append_assoc]
  rcases nu with _ | user
  · exact of_decide_eq_true rfl
  rcases gmi with _ | _ | ⟨sock, ident, _ | _⟩
  · exact of_decide_eq_true rfl
  · exact of_decide_eq_true rfl
  · exact of_decide_eq_true rfl
  rcases st with _ | _; swap
  · exact of_decide_eq_true rfl
  rcases conn with _ | ctx
  · exact of_decide_eq_true rfl
  rcases args with _ | ⟨idOrName, cmd⟩
  · exact of_decide_eq_true rfl
  rcases inst with _ | _; swap
  · exact of_decide_eq_true rfl
  rcases port with _ | sshPort
  · exact of_decide_eq_true rfl
  rcases nvm with _ | _; swap
  · exact of_decide_eq_true rfl
  rcases unl with _ | _
  all_goals (rcases run with _ | _; swap; · exact of_decide_eq_true rfl)
  all_goals rcases q with _ | _
  all_goals (rcases wait with _ | _; swap; · exact of_decide_eq_true rfl)
  all_goals (rcases ssh with _ | _; swap; · exact of_decide_eq_true rfl)
  all_goals rcases rm with _ | _
  all_goals rcases cmd with _ | ⟨c, cs⟩
  all_goals rcases del with _ | _
  all_goals exact of_decide_eq_true rfl

/-- The command passed to `RunSSH` is `args[1:]`, and the error returned,
`ExitCode` and the VM operations other than the console goroutine do not
depend on `Quiet`. -/
theorem quiet_independent_aux (env : Env) (vmConfig : osVmConfig)
    (disk : DiskImageConfig) (chg : Bool) (args : List String) (ec : Int) :
    (invoked (doRun env vmConfig disk chg args ec) .SSH →
      (doRun env vmConfig disk chg args ec).trace.filterMap Event.sshCommand = [args.drop 1])
    ∧ ∀ q, (doRun env { vmConfig with Quiet := q } disk chg args ec).outcome
          = (doRun env vmConfig disk chg args ec).outcome
        ∧ (doRun env { vmConfig with Quiet := q } disk chg args ec).ExitCode
          = (doRun env vmConfig disk chg args ec).ExitCode
        ∧ (doRun env { vmConfig with Quiet := q } disk chg args ec).trace.filter
            (fun e => e.isVMOp && !(e == Event.goPrintConsole))
          = (doRun env vmConfig disk chg args ec).trace.filter
            (fun e => e.isVMOp && !(e == Event.goPrintConsole)) := by
  obtain ⟨hint, uri, nu, gmi, st, conn, inst, img, port, nvm, run, wc, wait, ⟨code, ssh⟩, del,
      unl⟩ := env
  obtain ⟨u, cd, ks, bg, nc, rm, rdi, q⟩ := vmConfig
  simp only [doRun, doRunBody, doRunSSH, runDeferred, decide_length_pos, List.cons_append,
      List.nil_append, List.append_assoc]
  rcases nu with _ | user
  · (refine ⟨fun h => ?_, fun q' => ?_⟩ <;> first | rfl | exact absurd h (of_decide_eq_true rfl) | (cases q' <;> exact ⟨rfl, rfl, rfl⟩))
  rcases gmi with _ | _ | ⟨sock, ident, _ | _⟩
  · (refine ⟨fun h => ?_, fun q' => ?_⟩ <;> first | rfl | exact absurd h (of_decide_eq_true rfl) | (cases q' <;> exact ⟨rfl, rfl, rfl⟩))
  · (refine ⟨fun h => ?_, fun q' => ?_⟩ <;> first | rfl | exact absurd h (of_decide_eq_true rfl) | (cases q' <;> exact ⟨rfl, rfl, rfl⟩))
  · (refine ⟨fun h => ?_, fun q' => ?_⟩ <;> first | rfl | exact absurd h (of_decide_eq_true rfl) | (cases q' <;> exact ⟨rfl, rfl, rfl⟩))
  rcases st with _ | _; swap
  · (refine ⟨fun h => ?_, fun q' => ?_⟩ <;> first | rfl | exact absurd h (of_decide_eq_true rfl) | (cases q' <;> exact ⟨rfl, rfl, rfl⟩))
  rcases conn with _ | ctx
  · (refine ⟨fun h => ?_, fun q' => ?_⟩ <;> first | rfl | exact absurd h (of_decide_eq_true rfl) | (cases q' <;> exact ⟨rfl, rfl, rfl⟩))
  rcases args with _ | ⟨idOrName, cmd⟩
  · (refine ⟨fun h => ?_, fun q' => ?_⟩ <;> first | rfl | exact absurd h (of_decide_eq_true rfl) | (cases q' <;> exact ⟨rfl, rfl, rfl⟩))
  rcases inst with _ | _; swap
  · (refine ⟨fun h => ?_, fun q' => ?_⟩ <;> first | rfl | exact absurd h (of_decide_eq_true rfl) | (cases q' <;> exact ⟨rfl, rfl, rfl⟩))
  rcases port with _ | sshPort
  · (refine ⟨fun h => ?_, fun q' => ?_⟩ <;> first | rfl | exact absurd h (of_decide_eq_true rfl) | (cases q' <;> exact ⟨rfl, rfl, rfl⟩))
  rcases nvm with _ | _; swap
  · (refine ⟨fun h => ?_, fun q' => ?_⟩ <;> first | rfl | exact absurd h (of_decide_eq_true rfl) | (cases q' <;> exact ⟨rfl, rfl, rfl⟩))
  rcases unl with _ | _
  all_goals (rcases run with _ | _; swap; · (refine ⟨fun h => ?_, fun q' => ?_⟩ <;> first | rfl | exact absurd h (of_decide_eq_true rfl) | (cases q' <;> exact ⟨rfl, rfl, rfl⟩)))
  all_goals (rcases wc with _ | _; swap; · (refine ⟨fun h => ?_, fun q' => ?_⟩ <;> first | rfl | exact absurd h (of_decide_eq_true rfl) | (cases q' <;> exact ⟨rfl, rfl, rfl⟩)))
  all_goals (rcases bg with _ | _; swap; · (refine ⟨fun h => ?_, fun q' => ?_⟩ <;> first | rfl | exact absurd h (of_decide_eq_true rfl) | (cases q' <;> exact ⟨rfl, rfl, rfl⟩)))
  all_goals rcases q with _ | _
  all_goals (rcases wait with _ | _; swap; · (refine ⟨fun h => ?_, fun q' => ?_⟩ <;> first | rfl | exact absurd h (of_decide_eq_true rfl) | (cases q' <;> exact ⟨rfl, rfl, rfl⟩)))
  all_goals (rcases ssh with _ | _; swap; · (refine ⟨fun h => ?_, fun q' => ?_⟩ <;> first | rfl | exact absurd h (of_decide_eq_true rfl) | (cases q' <;> exact ⟨rfl, rfl, rfl⟩)))
  all_goals rcases rm with _ | _
  all_goals rcases cmd with _ | ⟨c, cs⟩
  all_goals rcases del with _ | _
  all_goals (refine ⟨fun h => ?_, fun q' => ?_⟩ <;> first | rfl | exact absurd h (of_decide_eq_true rfl) | (cases q' <;> exact ⟨rfl, rfl, rfl⟩))

/-- C10: in a foreground run that reaches the interactive branch,
`WaitForSSHToBeReady` is invoked exactly once; its failure makes `doRun` return
the error wrapped with `WaitSshReady: ` without invoking `RunSSH`; its success
is followed by `RunSSH` with `args[1:]`; the console goroutine is started
exactly when `Quiet` is false, at most once, and before the readiness wait;
and the error returned, `ExitCode` and the VM operations other than the console
goroutine are the same for both values of `Quiet`. -/
theorem C10_readiness_wait_same_on_both_paths (env : Env) (vmConfig : osVmConfig)
    (disk : DiskImageConfig) (chg : Bool) (args : List String) (ec : Int)
    (hfg : vmConfig.Background = false)
    (hinv : invoked (doRun env vmConfig disk chg args ec) .WriteConfig)
    (hwc : env.WriteConfig = none) :
    (doRun env vmConfig disk chg args ec).trace.count Event.WaitForSSHToBeReady = 1
    ∧ (∀ err, env.WaitForSSHToBeReady = some err →
        (doRun env vmConfig disk chg args ec).outcome
          = .returned (some (.Errorf "WaitSshReady: " err))
        ∧ ∀ cmd, Event.RunSSH cmd ∉ (doRun env vmConfig disk chg args ec).trace)
    ∧ (env.WaitForSSHToBeReady = none →
        (doRun env vmConfig disk chg args ec).trace.filterMap Event.sshCommand = [args.drop 1]
        ∧ precedes (fun e => e == Event.WaitForSSHToBeReady) (fun e => e.step == some Step.SSH)
            (doRun env vmConfig disk chg args ec).trace = true)
    ∧ (Event.goPrintConsole ∈ (doRun env vmConfig disk chg args ec).trace ↔
        vmConfig.Quiet = false)
    ∧ (doRun env vmConfig disk chg args ec).trace.count Event.goPrintConsole ≤ 1
    ∧ (Event.goPrintConsole ∈ (doRun env vmConfig disk chg args ec).trace →
        precedes (fun e => e == Event.goPrintConsole) (fun e => e == Event.WaitForSSHToBeReady)
          (doRun env vmConfig disk chg args ec).trace = true)
    ∧ (∀ q, (doRun env { vmConfig with Quiet := q } disk chg args ec).outcome
          = (doRun env vmConfig disk chg args ec).outcome
        ∧ (doRun env { vmConfig with Quiet := q } disk chg args ec).ExitCode
          = (doRun env vmConfig disk chg args ec).ExitCode
        ∧ (doRun env { vmConfig with Quiet := q } disk chg args ec).trace.filter
            (fun e => e.isVMOp && !(e == Event.goPrintConsole))
          = (doRun env vmConfig disk chg args ec).trace.filter
            (fun e => e.isVMOp && !(e == Event.goPrintConsole))) := by
  obtain ⟨h1, h2, h3, h4, h5, h6, h7⟩ := interactive_aux env vmConfig disk chg args ec hfg hinv hwc
  obtain ⟨k1, k2⟩ := quiet_independent_aux env vmConfig disk chg args ec
  refine ⟨h1, ?_, ?_, h5, h6, h7, k2⟩
  · intro err hw
    refine ⟨(step_errors env vmConfig disk chg args ec).2.2.2.2.2.1 err hw h2, ?_⟩
    intro cmd hc
    exact h3 (by rw [hw]; rfl) ⟨_, hc, rfl⟩
  · intro hw
    exact ⟨k1 (h4 hw).1, (h4 hw).2⟩

/-- C10 at a concrete input: a quiet foreground run of the command `true`. -/
theorem C10_witness :
    (doRun envOk { defaultConfig with Quiet := true } defaultDisk false
        ["quay.io/img", "true"] 0).trace.count Event.WaitForSSHToBeReady = 1
    ∧ (doRun envOk { defaultConfig with Quiet := true } defaultDisk false
        ["quay.io/img", "true"] 0).trace.filterMap Event.sshCommand = [["true"]] :=
  ⟨(C10_readiness_wait_same_on_both_paths envOk { defaultConfig with Quiet := true } defaultDisk
      false ["quay.io/img", "true"] 0 rfl (by decide) rfl).1,
   ((C10_readiness_wait_same_on_both_paths envOk { defaultConfig with Quiet := true } defaultDisk
      false ["quay.io/img", "true"] 0 rfl (by decide) rfl).2.2.1 rfl).1⟩

end PodmanBootc
